import Mathlib

/- Verification of the client-side object model of the interactions.py
repository: a shallow embedding of the domain objects (Member, Invite,
the Component family) and of the declarative field/serialization layer
they ride on, together with theorems settling the specified properties. -/

namespace Interactions

/-- JSON-like wire values exchanged with the platform API. -/
inductive Val where
  | vnull
  | vbool (b : Bool)
  | vint (n : Int)
  | vstr (s : String)
  | vlist (elems : List Val)
  | vobj (fields : List (String × Val))

/-- Errors a model operation can surface.  `missingContext` is the explicit
guard failure `AttributeError("HTTPClient not found!")`; `noneAttribute` is
the attribute error from dereferencing an absent (`None`) object;
`formatError` is a wire-value that cannot be converted; `typeError` models
Python `TypeError` (e.g. `int(None)`); `transport` propagates a transport
collaborator failure unchanged. -/
inductive Err where
  | missingContext
  | noneAttribute
  | formatError
  | typeError
  | transport (msg : String)
deriving DecidableEq

/-- The process-wide unset marker `MISSING`: `Absent α` is either the
sentinel or a caller-supplied value (which may itself be null via `Option`
inside `α`). -/
inductive Absent (α : Type) where
  | missing
  | given (a : α)

/-- A parameter accepting either one value or a list of values. -/
inductive OneOrMany (α : Type) where
  | one (a : α)
  | many (l : List α)

/-- Association lookup in a JSON object, first match wins. -/
def lookupAssoc : List (String × Val) → String → Option Val
  | [], _ => none
  | (k, v) :: rest, key => if k = key then some v else lookupAssoc rest key

/-- Python `dict.update` for one key: replace in place if present, else
append at the end. -/
def updateAssoc (l : List (String × Val)) (k : String) (v : Val) :
    List (String × Val) :=
  if l.any (fun kv => kv.1 = k) then
    l.map (fun kv => if kv.1 = k then (k, v) else kv)
  else
    l ++ [(k, v)]

/-- Timestamps are carried as their ISO-8601 source strings; no claim
depends on date arithmetic, so `datetime.fromisoformat` is modelled as the
identity carrier on the string. -/
abbrev Timestamp := String

/-- Convert an optional raw value to an optional string: absent and null
give `none`; a non-string raw value is a wire-contract mismatch. -/
def asOptStr : Option Val → Except Err (Option String)
  | none => .ok none
  | some .vnull => .ok none
  | some (.vstr s) => .ok (some s)
  | some _ => .error .formatError

/-- Convert an optional raw value to an optional boolean. -/
def asOptBool : Option Val → Except Err (Option Bool)
  | none => .ok none
  | some .vnull => .ok none
  | some (.vbool b) => .ok (some b)
  | some _ => .error .formatError

/-- Modelled from the spec: the `snowflake` conversion utility (absent
from src/) normalizes an integer-or-string numeric identifier into one
canonical ID, failing with a format error on non-numeric input; here
wrapped optionally (absent/null pass through). -/
def asOptSnowflake : Option Val → Except Err (Option Int)
  | none => .ok none
  | some .vnull => .ok none
  | some (.vint n) => .ok (some n)
  | some (.vstr s) =>
    match s.toInt? with
    | some n => .ok (some n)
    | none => .error .formatError
  | some _ => .error .formatError

/-- Convert an optional raw value to an optional integer. -/
def asOptInt : Option Val → Except Err (Option Int)
  | none => .ok none
  | some .vnull => .ok none
  | some (.vint n) => .ok (some n)
  | some _ => .error .formatError

/-- Convert an optional raw value to an optional list of integers. -/
def asOptIntList : Option Val → Except Err (Option (List Int))
  | none => .ok none
  | some .vnull => .ok none
  | some (.vlist xs) =>
    match xs.mapM (fun v => match v with | Val.vint n => some n | _ => none) with
    | some ns => .ok (some ns)
    | none => .error .formatError
  | some _ => .error .formatError

/-- Modelled from the spec: a `File` attachment (api/models/misc.py is
absent from src/); carried by name, with `_json_payload` producing the
id-indexed attachment JSON. -/
structure File where
  name : String

/-- File to its attachment JSON at a given index (`File._json_payload`). -/
def File.json_payload (idx : Int) (f : File) : Val :=
  .vobj [("id", .vint idx), ("filename", .vstr f.name)]

/-- One transport invocation, recording the endpoint and the explicit
structured arguments the code passes to the HTTP collaborator. -/
inductive Call where
  | create_guild_ban (guild_id user_id : Int) (reason : Option String)
      (delete_message_days : Int)
  | create_guild_kick (guild_id user_id : Int) (reason : Option String)
  | add_member_role (guild_id user_id role_id : Int) (reason : Option String)
  | remove_member_role (guild_id user_id role_id : Int) (reason : Option String)
  | create_dm (recipient_id : Int)
  | create_message (channel_id : Int) (payload : List (String × Val))
      (files : Absent (Option (OneOrMany File)))
  | modify_member (user_id guild_id : Int) (payload : List (String × Val))
      (reason : Option String)
  | add_member_to_thread (user_id thread_id : Int)
  | delete_invite (code : String) (reason : Absent String)

/-- The HTTP transport collaborator: one call in, a parsed JSON mapping or
a transport error out (spec section 6). -/
def Http := Call → Except String Val

/-- A user object (api/models/user.py is absent from src/; modelled from
the spec as an identifier-bearing entity with the username and avatar
fields the claims reference, lenient to partial payloads, plus the
client reference propagated by `add_client`). -/
structure User where
  id : Option Int
  username : Option String
  avatar : Option String
  client : Option Http

/-- Construct a `User` from a raw JSON object (`User(**raw)` through the
serializer base), attaching the given client reference. -/
def userOfVal (client : Option Http) : Val → Except Err User
  | .vobj kvs => do
    let uid ← asOptSnowflake (lookupAssoc kvs "id")
    let uname ← asOptStr (lookupAssoc kvs "username")
    let uav ← asOptStr (lookupAssoc kvs "avatar")
    .ok ⟨uid, uname, uav, client⟩
  | _ => .error .formatError

/-- A channel carrier (api/models/channel.py is absent from src/): only
its identifier is consumed by the modelled code (`int(channel.id)`). -/
structure ChannelV where
  id : Int

/-- Channel construction from the `create_dm` response: `Channel(**res)`
followed by `int(channel.id)`. -/
def channelFromVal : Val → Except Err ChannelV
  | .vobj kvs =>
    match asOptSnowflake (lookupAssoc kvs "id") with
    | .ok (some n) => .ok ⟨n⟩
    | _ => .error .formatError
  | _ => .error .formatError

/-- A message carrier (api/models/message.py is absent from src/):
`Message(**res, _client=...)` keeps the raw response and the client. -/
structure MessageV where
  raw : Val
  client : Option Http

/-- A role carrier: only its identifier is consumed (`int(role.id)`). -/
structure Role where
  id : Int

/-- A role-or-identifier parameter (`Union[Role, int]`), the tagged union
the `isinstance` branches of `add_role` and `remove_role` inspect. -/
inductive RoleArg where
  | role (r : Role)
  | id (n : Int)

/-- The member of a guild, mirroring the field declarations of
api/models/member.py lines 35-52.  The logical attribute `_avatar` is
declared with wire key `"avatar"` (`discord_name="avatar"`).  Fields
declared without an explicit default are still populated as `None` on
absent keys: the serializer base (attrs_utils, absent from src/) applies
defaults per spec section 4.3, tolerating partial gateway payloads.
`hoisted_role` is typed `Any` and carried verbatim.  `client` is the
`_client` reference held by the client-bound base. -/
structure Member where
  user : Option User
  nick : Option String
  _avatar : Option String
  roles : Option (List Int)
  joined_at : Option Timestamp
  premium_since : Option Timestamp
  deaf : Option Bool
  mute : Option Bool
  is_pending : Option Bool
  pending : Option Bool
  permissions : Option Int
  communication_disabled_until : Option Timestamp
  hoisted_role : Option Val
  flags : Option Int
  client : Option Http

/-- The converter of the `user` field: optional (absent/null pass
through) construction of the nested `User`, which also receives the
client reference (`add_client=True`). -/
def userFieldConv (client : Option Http) :
    Option Val → Except Err (Option User)
  | none => .ok none
  | some .vnull => .ok none
  | some v => (userOfVal client v).map some

/-- Construct a `Member` from raw keyword arguments
(`Member(**raw, _client=client)` through the serializer base): each field
is looked up by its wire key (note `_avatar` reads key `"avatar"`),
optional converters pass absent/null through unchanged, and the `user`
field's converter also receives the client (`add_client=True`). -/
def memberFromKwargs (raw : List (String × Val)) (client : Option Http) :
    Except Err Member := do
  let user ← userFieldConv client (lookupAssoc raw "user")
  let nick ← asOptStr (lookupAssoc raw "nick")
  let av ← asOptStr (lookupAssoc raw "avatar")
  let roles ← asOptIntList (lookupAssoc raw "roles")
  let joined ← asOptStr (lookupAssoc raw "joined_at")
  let prem ← asOptStr (lookupAssoc raw "premium_since")
  let deaf ← asOptBool (lookupAssoc raw "deaf")
  let mute ← asOptBool (lookupAssoc raw "mute")
  let isp ← asOptBool (lookupAssoc raw "is_pending")
  let pend ← asOptBool (lookupAssoc raw "pending")
  let perms ← asOptSnowflake (lookupAssoc raw "permissions")
  let cdu ← asOptStr (lookupAssoc raw "communication_disabled_until")
  let fl ← asOptInt (lookupAssoc raw "flags")
  .ok ⟨user, nick, av, roles, joined, prem, deaf, mute, isp, pend, perms,
       cdu, lookupAssoc raw "hoisted_role", fl, client⟩

/-- The public `avatar` property (member.py lines 57-59):
`self._avatar or getattr(self.user, "avatar", None)` — Python truthiness,
so null and the empty string both fall back to the nested user's avatar. -/
def Member.avatar (m : Member) : Option String :=
  let ua := m.user.bind (fun u => u.avatar)
  match m._avatar with
  | some s => if s = "" then ua else some s
  | none => ua

/-- The `name` property (member.py lines 81-89):
`self.nick or (self.user.username if self.user else None)` — Python
truthiness, so a null or empty nickname falls back to the username. -/
def Member.name (m : Member) : Option String :=
  let un := m.user.bind (fun u => u.username)
  match m.nick with
  | some s => if s = "" then un else some s
  | none => un

/-- Outcome of an action method: the transport calls actually invoked, in
order, and the result or the error that aborted the call. -/
structure Out (α : Type) where
  calls : List Call
  result : Except Err α

/-- Outcome of `Member.modify`: calls, the state of `self` after the call
(unchanged on failure), and the result. -/
structure ModifyOut where
  calls : List Call
  selfAfter : Member
  result : Except Err Member

/-- Resolve the tagged role-or-id union to a role id, as the
`isinstance(role, Role)` branches do. -/
def RoleArg.resolve : RoleArg → Int
  | .role r => r.id
  | .id n => n

/-- The `Member.ban` method (member.py lines 91-112).  NOTE: unlike every
other action method of this class it performs no `_client` guard, so an
absent client surfaces as the attribute error of dereferencing `None`
(the callable `self._client.create_guild_ban` is evaluated before the
arguments), not as the explicit missing-context failure. -/
def Member.ban (m : Member) (guild_id : Int) (reason : Option String)
    (delete_message_days : Int) : Out Unit :=
  match m.client with
  | none => ⟨[], .error .noneAttribute⟩
  | some http =>
    match m.user with
    | none => ⟨[], .error .noneAttribute⟩
    | some u =>
      match u.id with
      | none => ⟨[], .error .typeError⟩
      | some uid =>
        let c := Call.create_guild_ban guild_id uid reason delete_message_days
        match http c with
        | .ok _ => ⟨[c], .ok ()⟩
        | .error e => ⟨[c], .error (.transport e)⟩

/-- The `Member.kick` method (member.py lines 114-133): explicit client
guard, then one `create_guild_kick` transport call. -/
def Member.kick (m : Member) (guild_id : Int) (reason : Option String) :
    Out Unit :=
  match m.client with
  | none => ⟨[], .error .missingContext⟩
  | some http =>
    match m.user with
    | none => ⟨[], .error .noneAttribute⟩
    | some u =>
      match u.id with
      | none => ⟨[], .error .typeError⟩
      | some uid =>
        let c := Call.create_guild_kick guild_id uid reason
        match http c with
        | .ok _ => ⟨[c], .ok ()⟩
        | .error e => ⟨[c], .error (.transport e)⟩

/-- The `Member.add_role` method (member.py lines 135-166): explicit
client guard, then one `add_member_role` call with the resolved role id. -/
def Member.add_role (m : Member) (role : RoleArg) (guild_id : Int)
    (reason : Option String) : Out Unit :=
  match m.client with
  | none => ⟨[], .error .missingContext⟩
  | some http =>
    match m.user with
    | none => ⟨[], .error .noneAttribute⟩
    | some u =>
      match u.id with
      | none => ⟨[], .error .typeError⟩
      | some uid =>
        let c := Call.add_member_role guild_id uid role.resolve reason
        match http c with
        | .ok _ => ⟨[c], .ok ()⟩
        | .error e => ⟨[c], .error (.transport e)⟩

/-- The `Member.remove_role` method (member.py lines 168-199): explicit
client guard, then one `remove_member_role` call with the resolved id. -/
def Member.remove_role (m : Member) (role : RoleArg) (guild_id : Int)
    (reason : Option String) : Out Unit :=
  match m.client with
  | none => ⟨[], .error .missingContext⟩
  | some http =>
    match m.user with
    | none => ⟨[], .error .noneAttribute⟩
    | some u =>
      match u.id with
      | none => ⟨[], .error .typeError⟩
      | some uid =>
        let c := Call.remove_member_role guild_id uid role.resolve reason
        match http c with
        | .ok _ => ⟨[c], .ok ()⟩
        | .error e => ⟨[c], .error (.transport e)⟩

/-- The `Member.add_to_thread` method (member.py lines 350-365): explicit
client guard, then one `add_member_to_thread` call. -/
def Member.add_to_thread (m : Member) (thread_id : Int) : Out Unit :=
  match m.client with
  | none => ⟨[], .error .missingContext⟩
  | some http =>
    match m.user with
    | none => ⟨[], .error .noneAttribute⟩
    | some u =>
      match u.id with
      | none => ⟨[], .error .typeError⟩
      | some uid =>
        let c := Call.add_member_to_thread uid thread_id
        match http c with
        | .ok _ => ⟨[c], .ok ()⟩
        | .error e => ⟨[c], .error (.transport e)⟩

/-- Modelled from the spec: `_build_components` (client/models/component.py,
absent from src/) serializes the supplied components to their JSON form;
components are carried here already in serialized form, so the build step
is the identity on the list. -/
def build_components (cs : List Val) : List Val := cs

/-- Payload construction of `Member.send` (member.py lines 243-274): every
parameter left at `MISSING` is replaced by a default (empty string, false,
empty list, empty mapping) and the resulting mapping ALWAYS contains all
six keys, in the order of the `dict(...)` literal at line 267. -/
def sendPayload (content : Absent (Option String))
    (tts : Absent (Option Bool))
    (files : Absent (Option (OneOrMany File)))
    (embeds : Absent (Option (OneOrMany Val)))
    (components : Absent (Option (OneOrMany Val)))
    (allowed_mentions : Absent (Option Val)) : List (String × Val) :=
  let contentV : Val :=
    match content with
    | .missing => .vstr ""
    | .given none => .vnull
    | .given (some s) => .vstr s
  let ttsV : Val :=
    match tts with
    | .missing => .vbool false
    | .given none => .vnull
    | .given (some b) => .vbool b
  let embedsV : Val :=
    match embeds with
    | .missing => .vlist []
    | .given none => .vlist []
    | .given (some (.one e)) => .vlist [e]
    | .given (some (.many es)) => .vlist es
  let amV : Val :=
    match allowed_mentions with
    | .missing => .vobj []
    | .given none => .vnull
    | .given (some v) => v
  let componentsV : Val :=
    match components with
    | .missing => .vlist []
    | .given none => .vlist []
    | .given (some (.one c)) => .vlist (build_components [c])
    | .given (some (.many [])) => .vlist []
    | .given (some (.many cs)) => .vlist (build_components cs)
  let filesV : Val :=
    match files with
    | .missing => .vlist []
    | .given none => .vlist []
    | .given (some (.one f)) => .vlist [f.json_payload 0]
    | .given (some (.many fs)) =>
      .vlist (fs.enum.map (fun p => p.2.json_payload (p.1 : Int)))
  [("content", contentV), ("tts", ttsV), ("attachments", filesV),
   ("embeds", embedsV), ("components", componentsV),
   ("allowed_mentions", amV)]

/-- The `files` argument as forwarded to `create_message`: the source
rebinds `files = [files]` in the single-file branch and forwards the
parameter untouched otherwise. -/
def sendFilesForward (files : Absent (Option (OneOrMany File))) :
    Absent (Option (OneOrMany File)) :=
  match files with
  | .given (some (.one f)) => .given (some (.many [f]))
  | x => x

/-- The `Member.send` method (member.py lines 201-281): explicit client
guard, payload built with defaults for MISSING parameters, then a
`create_dm` call, a `Channel` built from its response, a `create_message`
call with the payload, and a `Message` built from that response. -/
def Member.send (m : Member) (content : Absent (Option String))
    (components : Absent (Option (OneOrMany Val)))
    (tts : Absent (Option Bool))
    (files : Absent (Option (OneOrMany File)))
    (embeds : Absent (Option (OneOrMany Val)))
    (allowed_mentions : Absent (Option Val)) : Out MessageV :=
  match m.client with
  | none => ⟨[], .error .missingContext⟩
  | some http =>
    let payload := sendPayload content tts files embeds components
      allowed_mentions
    match m.user with
    | none => ⟨[], .error .noneAttribute⟩
    | some u =>
      match u.id with
      | none => ⟨[], .error .typeError⟩
      | some uid =>
        let dmCall := Call.create_dm uid
        match http dmCall with
        | .error e => ⟨[dmCall], .error (.transport e)⟩
        | .ok chRaw =>
          match channelFromVal chRaw with
          | .error er => ⟨[dmCall], .error er⟩
          | .ok ch =>
            let msgCall := Call.create_message ch.id payload
              (sendFilesForward files)
            match http msgCall with
            | .error e => ⟨[dmCall, msgCall], .error (.transport e)⟩
            | .ok res => ⟨[dmCall, msgCall], .ok ⟨res, m.client⟩⟩

/-- Serialize an optional string payload entry (an explicit `None`
argument becomes JSON null). -/
def optStrVal : Option String → Val
  | none => .vnull
  | some s => .vstr s

/-- Serialize an optional boolean payload entry. -/
def optBoolVal : Option Bool → Val
  | none => .vnull
  | some b => .vbool b

/-- Serialize an optional integer payload entry. -/
def optIntVal : Option Int → Val
  | none => .vnull
  | some n => .vint n

/-- Serialize an optional integer-list payload entry. -/
def optIntListVal : Option (List Int) → Val
  | none => .vnull
  | some l => .vlist (l.map Val.vint)

/-- Payload construction of `Member.modify` (member.py lines 318-335): a
key is added exactly for each parameter that is not `MISSING`, in the
source order nick, roles, channel_id, mute, deaf,
communication_disabled_until. -/
def modifyPayload (nick : Absent (Option String))
    (roles : Absent (Option (List Int)))
    (channel_id : Absent (Option Int))
    (mute : Absent (Option Bool))
    (deaf : Absent (Option Bool))
    (communication_disabled_until : Absent (Option String)) :
    List (String × Val) :=
  (match nick with
   | .missing => []
   | .given v => [("nick", optStrVal v)]) ++
  (match roles with
   | .missing => []
   | .given v => [("roles", optIntListVal v)]) ++
  (match channel_id with
   | .missing => []
   | .given v => [("channel_id", optIntVal v)]) ++
  (match mute with
   | .missing => []
   | .given v => [("mute", optBoolVal v)]) ++
  (match deaf with
   | .missing => []
   | .given v => [("deaf", optBoolVal v)]) ++
  (match communication_disabled_until with
   | .missing => []
   | .given v => [("communication_disabled_until", optStrVal v)])

/-- The whole-object replacement loop of `Member.modify` (member.py lines
345-346): `for attr in self.__slots__: setattr(self, attr, getattr(member,
attr))`, unrolled over the slot set of `Member` — the fourteen declared
fields; `_client` lives on the mixin, not in `Member.__slots__`, so the
context reference of `self` is left untouched. -/
def replaceSlots (self fresh : Member) : Member :=
  ⟨fresh.user, fresh.nick, fresh._avatar, fresh.roles, fresh.joined_at,
   fresh.premium_since, fresh.deaf, fresh.mute, fresh.is_pending,
   fresh.pending, fresh.permissions, fresh.communication_disabled_until,
   fresh.hoisted_role, fresh.flags, self.client⟩

/-- The `Member.modify` method (member.py lines 283-348): explicit client
guard, exclusion-based payload, one `modify_member` transport call, a
fresh `Member` built from the response with the same client, wholesale
slot replacement on `self`, and the fresh member returned.  On any
failure `self` is left exactly as it was. -/
def Member.modify (m : Member) (guild_id : Int)
    (nick : Absent (Option String))
    (roles : Absent (Option (List Int)))
    (mute : Absent (Option Bool))
    (deaf : Absent (Option Bool))
    (channel_id : Absent (Option Int))
    (communication_disabled_until : Absent (Option String))
    (reason : Option String) : ModifyOut :=
  match m.client with
  | none => ⟨[], m, .error .missingContext⟩
  | some http =>
    let payload := modifyPayload nick roles channel_id mute deaf
      communication_disabled_until
    match m.user with
    | none => ⟨[], m, .error .noneAttribute⟩
    | some u =>
      match u.id with
      | none => ⟨[], m, .error .typeError⟩
      | some uid =>
        let c := Call.modify_member uid guild_id payload reason
        match http c with
        | .error e => ⟨[c], m, .error (.transport e)⟩
        | .ok res =>
          match res with
          | .vobj kvs =>
            match memberFromKwargs kvs m.client with
            | .error er => ⟨[c], m, .error er⟩
            | .ok fresh => ⟨[c], replaceSlots m fresh, .ok fresh⟩
          | _ => ⟨[c], m, .error .typeError⟩

/-- An enum-coerced value: either a mapped variant or, per the spec's
section 7 policy, the preserved raw integer when no variant matches. -/
inductive EnumCoerced (α : Type) where
  | variant (a : α)
  | unknownRaw (n : Int)

/-- Modelled from the spec: `enumCoerce` (the enums module is absent from
src/) maps a raw integer to the matching variant and, per the section 7
policy, preserves the raw integer and continues when no variant is
mapped. -/
def enumCoerce {α : Type} (ofInt : Int → Option α) (n : Int) :
    EnumCoerced α :=
  match ofInt n with
  | some a => .variant a
  | none => .unknownRaw n

/-- Modelled from the spec: the component-type enum (enums module absent
from src/) with the variants the source references: ACTION_ROW, BUTTON
(underlying value 2), SELECT (underlying value 3). -/
inductive ComponentType where
  | actionRow
  | button
  | selectMenu
deriving DecidableEq

/-- Underlying integer of a component-type variant (`.value`). -/
def ComponentType.val : ComponentType → Int
  | .actionRow => 1
  | .button => 2
  | .selectMenu => 3

/-- Partial inverse: the variant mapped to a raw integer, if any. -/
def ComponentType.ofInt (n : Int) : Option ComponentType :=
  if n = 1 then some .actionRow
  else if n = 2 then some .button
  else if n = 3 then some .selectMenu
  else none

/-- Modelled from the spec: the invite-target-type enum (enums module
absent from src/) with its two platform variants. -/
inductive InviteTargetTypes where
  | stream
  | embeddedApplication
deriving DecidableEq

/-- Partial inverse for the invite-target-type enum. -/
def InviteTargetTypes.ofInt (n : Int) : Option InviteTargetTypes :=
  if n = 1 then some .stream
  else if n = 2 then some .embeddedApplication
  else none

/-- The converter of `Invite.target_type` (invite.py lines 46-48):
`optional_c(InviteTargetTypes)` — absent/null pass through, an integer is
enum-coerced with the tolerant section 7 policy. -/
def inviteTargetTypeConv : Option Val →
    Except Err (Option (EnumCoerced InviteTargetTypes))
  | none => .ok none
  | some .vnull => .ok none
  | some (.vint n) => .ok (some (enumCoerce InviteTargetTypes.ofInt n))
  | some _ => .error .formatError

/-- The cache collaborator (spec section 6): synchronous
`get_<entity>(id)` lookups returning the entity or null. -/
structure Cache where
  get_user : Int → Option User
  get_channel : Int → Option ChannelV

/-- The client/session object an `Invite` is bound to: the entity cache
and the HTTP transport. -/
structure InviteClient where
  cache : Cache
  http : Http

/-- An invite, mirroring the attrs field declarations of
models/discord/invite.py lines 26-76.  Fields whose declared default is
the `MISSING` sentinel are collapsed with null into `Option` here, since
no claim distinguishes them on this object; `_channel_id` is required and
always present; `client` is the `_client` reference of the client-bound
base (optional to model a manually built instance). -/
structure Invite where
  code : String
  uses : Int
  max_uses : Int
  max_age : Int
  created_at : Option Timestamp
  temporary : Bool
  target_type : Option (EnumCoerced InviteTargetTypes)
  approximate_presence_count : Option Int
  approximate_member_count : Option Int
  scheduled_event : Option Int
  expires_at : Option Timestamp
  stage_instance : Option Val
  target_application : Option Val
  guild_preview : Option Val
  _channel_id : Int
  _inviter_id : Option Int
  _target_user_id : Option Int
  client : Option InviteClient

/-- The `Invite.channel` property (invite.py lines 78-81): an unguarded
cache lookup `self._client.cache.get_channel(self._channel_id)`. -/
def Invite.channel (inv : Invite) : Except Err (Option ChannelV) :=
  match inv.client with
  | none => .error .noneAttribute
  | some c => .ok (c.cache.get_channel inv._channel_id)

/-- The `Invite.inviter` property (invite.py lines 83-86):
`self._client.cache.get_user(self._inviter_id) if self._inviter_id else
None` — the truthiness test on the identifier is evaluated first, so an
absent (or zero) identifier yields null without touching the client. -/
def Invite.inviter (inv : Invite) : Except Err (Option User) :=
  match inv._inviter_id with
  | none => .ok none
  | some i =>
    if i = 0 then .ok none
    else
      match inv.client with
      | none => .error .noneAttribute
      | some c => .ok (c.cache.get_user i)

/-- The `Invite.target_user` property (invite.py lines 88-91), same shape
as `inviter` over `_target_user_id`. -/
def Invite.target_user (inv : Invite) : Except Err (Option User) :=
  match inv._target_user_id with
  | none => .ok none
  | some i =>
    if i = 0 then .ok none
    else
      match inv.client with
      | none => .error .noneAttribute
      | some c => .ok (c.cache.get_user i)

/-- The `Invite.delete` method (invite.py lines 127-141).  NOTE: no
client guard — an absent client surfaces as the attribute error of
dereferencing `None` at `self._client.http`, before any transport call. -/
def Invite.delete (inv : Invite) (reason : Absent String) : Out Unit :=
  match inv.client with
  | none => ⟨[], .error .noneAttribute⟩
  | some c =>
    let call := Call.delete_invite inv.code reason
    match c.http call with
    | .ok _ => ⟨[call], .ok ()⟩
    | .error e => ⟨[call], .error (.transport e)⟩

/-- The generic `Component` (component.py lines 93-150).  The base mixin
(api/models/misc.py, absent from src/) stores each keyword argument on
the matching slot verbatim and keeps the whole mapping as `_json`; the
`type` field is then enum-coerced in `__init__` (line 149). -/
structure Component where
  type : EnumCoerced ComponentType
  custom_id : Option Val
  disabled : Option Val
  style : Option Val
  label : Option Val
  emoji : Option Val
  url : Option Val
  options : Option Val
  placeholder : Option Val
  min_values : Option Val
  max_values : Option Val
  components : Option Val
  _json : List (String × Val)

/-- Keyword-argument construction of `Component`: base assignment of each
slot from the kwargs mapping, then `self.type = ComponentType(self.type)`
— coercing a missing or non-integer type raises, an unmapped integer is
preserved raw per the tolerant coercion. -/
def componentNew (kwargs : List (String × Val)) : Except Err Component :=
  match lookupAssoc kwargs "type" with
  | some (.vint n) =>
    .ok { type := enumCoerce ComponentType.ofInt n,
          custom_id := lookupAssoc kwargs "custom_id",
          disabled := lookupAssoc kwargs "disabled",
          style := lookupAssoc kwargs "style",
          label := lookupAssoc kwargs "label",
          emoji := lookupAssoc kwargs "emoji",
          url := lookupAssoc kwargs "url",
          options := lookupAssoc kwargs "options",
          placeholder := lookupAssoc kwargs "placeholder",
          min_values := lookupAssoc kwargs "min_values",
          max_values := lookupAssoc kwargs "max_values",
          components := lookupAssoc kwargs "components",
          _json := kwargs }
  | _ => .error .typeError

/-- A button (component.py lines 64-90), fields per its slot list. -/
structure Button where
  type : ComponentType
  style : Val
  label : Option Val
  emoji : Option Val
  custom_id : Option Val
  url : Option Val
  disabled : Option Val
  _json : List (String × Val)

/-- Keyword-argument construction of `Button` (component.py lines 87-90):
base assignment, then the constructor unconditionally sets
`self.type = ComponentType.BUTTON` and writes the underlying integers of
`type` and `style` into `_json`.  A missing or non-integer style fails at
`self.style.value`. -/
def buttonNew (kwargs : List (String × Val)) : Except Err Button :=
  match lookupAssoc kwargs "style" with
  | some (.vint s) =>
    .ok { type := .button,
          style := .vint s,
          label := lookupAssoc kwargs "label",
          emoji := lookupAssoc kwargs "emoji",
          custom_id := lookupAssoc kwargs "custom_id",
          url := lookupAssoc kwargs "url",
          disabled := lookupAssoc kwargs "disabled",
          _json := updateAssoc
            (updateAssoc kwargs "type" (.vint ComponentType.button.val))
            "style" (.vint s) }
  | _ => .error .noneAttribute

/-- A select menu (component.py lines 27-61), fields per its slot list
(note the slot list omits `options`). -/
structure SelectMenu where
  type : ComponentType
  custom_id : Option Val
  placeholder : Option Val
  min_values : Option Val
  max_values : Option Val
  disabled : Option Val
  _json : List (String × Val)

/-- Keyword-argument construction of `SelectMenu` (component.py lines
58-61): base assignment, then the constructor unconditionally sets
`self.type = ComponentType.SELECT` and writes its underlying integer into
`_json`. -/
def selectMenuNew (kwargs : List (String × Val)) : SelectMenu :=
  { type := .selectMenu,
    custom_id := lookupAssoc kwargs "custom_id",
    placeholder := lookupAssoc kwargs "placeholder",
    min_values := lookupAssoc kwargs "min_values",
    max_values := lookupAssoc kwargs "max_values",
    disabled := lookupAssoc kwargs "disabled",
    _json := updateAssoc kwargs "type" (.vint ComponentType.selectMenu.val) }

/-- An action row (component.py lines 152-172). -/
structure ActionRow where
  type : Int
  components : Option Val
  _json : List (String × Val)

/-- Keyword-argument construction of `ActionRow` (component.py lines
169-171): base assignment, then the constructor unconditionally sets
`self.type = 1`; its `_json` is not rewritten. -/
def actionRowNew (kwargs : List (String × Val)) : ActionRow :=
  { type := 1,
    components := lookupAssoc kwargs "components",
    _json := kwargs }

namespace Schema

/-- A field value: either still holding the unset marker or a converted
value.  The marker is distinct from JSON null. -/
inductive FVal where
  | unset
  | val (v : Val)

/-- Modelled from the spec: a field descriptor (spec section 4.2; the
attrs_utils binding layer is absent from src/): logical name, wire key,
converter, and the default taken when the wire key is absent (possibly
the unset marker itself). -/
structure FieldDescr where
  name : String
  wireKey : String
  conv : Val → Val
  default : FVal

/-- A constructed instance: the field values in schema order plus the
extra-data bag of unknown wire keys preserved verbatim. -/
structure Instance where
  fields : List FVal
  extra : List (String × Val)

/-- Convert one field from the raw mapping (spec section 4.3): look up
the wire key; if absent, use the default; if present, apply the
converter. -/
def convertField (raw : List (String × Val)) (f : FieldDescr) : FVal :=
  match lookupAssoc raw f.wireKey with
  | some v => .val (f.conv v)
  | none => f.default

/-- All fields of a schema converted from a raw mapping, in schema
order. -/
def buildFields (raw : List (String × Val)) : List FieldDescr → List FVal
  | [] => []
  | f :: fs => convertField raw f :: buildFields raw fs

/-- Whether a wire key is covered by some descriptor of the schema. -/
def isSchemaKey (schema : List FieldDescr) (k : String) : Bool :=
  schema.any (fun f => f.wireKey = k)

/-- Modelled from the spec: `fromJSON` of the serializable base (spec
section 4.3; absent from src/): schema-ordered field conversion, unknown
keys preserved verbatim in the extra bag. -/
def fromJSON (schema : List FieldDescr) (raw : List (String × Val)) :
    Instance :=
  ⟨buildFields raw schema,
   raw.filter (fun kv => !(isSchemaKey schema kv.1))⟩

/-- Serialize the schema-ordered field values: a field still holding the
unset marker is omitted, any other field is emitted under its wire key. -/
def emitFields : List FieldDescr → List FVal → List (String × Val)
  | f :: fs, x :: xs =>
    (match x with
     | .val v => [(f.wireKey, v)]
     | .unset => []) ++ emitFields fs xs
  | _, _ => []

/-- Modelled from the spec: `toJSON` of the serializable base (spec
section 4.3; absent from src/): unset fields dropped, others emitted
under their wire keys, followed by the preserved extra bag. -/
def toJSON (schema : List FieldDescr) (inst : Instance) :
    List (String × Val) :=
  emitFields schema inst.fields ++ inst.extra

/-- The option view of a field value: unset is no entry, a value is an
entry. -/
def FVal.toOption : FVal → Option Val
  | .unset => none
  | .val v => some v

end Schema

/-- The key list of a payload mapping. -/
def payloadKeys (l : List (String × Val)) : List String := l.map Prod.fst

/-- A concrete user for witness runs. -/
def demoUser : User := ⟨some 42, some "global", some "uav", none⟩

/-- A concrete fresh-member response body, as the `modify_member`
endpoint would return it. -/
def demoModifyKwargs : List (String × Val) :=
  [("nick", .vstr "fresh"), ("roles", .vlist [.vint 1]),
   ("joined_at", .vstr "2021-01-01T00:00:00"), ("deaf", .vbool false),
   ("mute", .vbool false), ("flags", .vint 0)]

/-- A concrete transport oracle: `create_dm` returns a channel with id 5,
`modify_member` returns the fresh member body, everything else returns an
empty object. -/
def demoHttp : Http := fun c =>
  match c with
  | .create_dm _ => .ok (.vobj [("id", .vint 5)])
  | .modify_member _ _ _ _ => .ok (.vobj demoModifyKwargs)
  | _ => .ok (.vobj [])

/-- A transport oracle that always fails. -/
def demoHttpErr : Http := fun _ => .error "rate limited"

/-- A member constructed without a client/session reference. -/
def demoMemberNoClient : Member :=
  ⟨some demoUser, none, none, none, none, none, none, none, none, none,
   none, none, none, none, none⟩

/-- A member with an attached working client. -/
def demoMember : Member :=
  ⟨some demoUser, none, none, none, none, none, none, none, none, none,
   none, none, none, none, some demoHttp⟩

/-- A member whose client's transport always fails. -/
def demoMemberErr : Member :=
  ⟨some demoUser, some "old", some "oldav", some [9], some "2020-01-01T00:00:00",
   none, some true, some true, none, none, none, none, none, some 4,
   some demoHttpErr⟩

/-- The member the demo `modify_member` response constructs
(`Member(**res, _client=self._client)` on `demoModifyKwargs`). -/
def demoFresh : Member :=
  ⟨none, some "fresh", none, some [1], some "2021-01-01T00:00:00", none,
   some false, some false, none, none, none, none, none, some 0,
   some demoHttp⟩

/-- A cache with no resident entities. -/
def demoCache : Cache := ⟨fun _ => none, fun _ => none⟩

/-- An invite client over the empty cache and the demo transport. -/
def demoInviteClient : InviteClient := ⟨demoCache, demoHttp⟩

/-- An invite constructed without a client/session reference. -/
def demoInviteNoClient : Invite :=
  ⟨"abc", 0, 0, 0, none, false, none, none, none, none, none, none, none,
   none, 3, some 7, none, none⟩

/-- An invite bound to the demo client. -/
def demoInvite : Invite :=
  ⟨"abc", 0, 0, 0, none, false, none, none, none, none, none, none, none,
   none, 3, some 7, none, some demoInviteClient⟩

/-- The spec's renamed-key example raw mapping:
`{"avatar": null, "user": {"avatar": "abc123"}}`. -/
def avatarExampleRaw : List (String × Val) :=
  [("avatar", .vnull), ("user", .vobj [("avatar", .vstr "abc123")])]

/-- A raw mapping whose guild avatar is the empty string (non-null) while
the nested user carries an avatar hash. -/
def avatarEmptyRaw : List (String × Val) :=
  [("avatar", .vstr ""), ("user", .vobj [("avatar", .vstr "abc123")])]

/-- Concrete component kwargs carrying an unmapped type integer. -/
def unknownTypeKwargs : List (String × Val) :=
  [("type", .vint 99), ("custom_id", .vstr "cid")]

/-- Concrete button kwargs with a caller-supplied bogus type value. -/
def buttonKwargs : List (String × Val) :=
  [("type", .vint 99), ("style", .vint 1), ("label", .vstr "hi")]

/-- A two-field witness schema: one defaultless-unset field with wire key
"a", one defaulted field with wire key "b"; identity converters. -/
def wSchema : List Schema.FieldDescr :=
  [⟨"f1", "a", fun v => v, .unset⟩,
   ⟨"f2", "b", fun v => v, .val (.vint 0)⟩]

/-- A witness raw mapping: covers wire key "a", omits "b", and carries
one unknown key. -/
def wRaw : List (String × Val) := [("a", .vint 5), ("zzz", .vstr "extra")]

/-- The member the spec's renamed-key example raw mapping constructs. -/
def avatarExampleMember : Member :=
  ⟨some ⟨none, none, some "abc123", none⟩, none, none, none, none, none,
   none, none, none, none, none, none, none, none, none⟩

/-- The member the empty-string-avatar raw mapping constructs. -/
def avatarEmptyMember : Member :=
  ⟨some ⟨none, none, some "abc123", none⟩, none, some "", none, none,
   none, none, none, none, none, none, none, none, none, none⟩

/-- The button that `buttonNew buttonKwargs` constructs. -/
def demoButton : Button :=
  ⟨.button, .vint 1, some (.vstr "hi"), none, none, none, none,
   [("type", .vint 2), ("style", .vint 1), ("label", .vstr "hi")]⟩

/-- A successful bind in the Except monad means both stages succeeded. -/
theorem except_bind_ok {ε α β : Type} {a : Except ε α} {f : α → Except ε β}
    {b : β} : (a >>= f) = Except.ok b ↔
      ∃ x, a = Except.ok x ∧ f x = Except.ok b := by
  cases a <;> simp [Bind.bind, Except.bind]

/-- A supplied argument is never the unset marker. -/
theorem absent_given_ne_missing {α : Type} (a : α) :
    Absent.given a ≠ Absent.missing := fun h => Absent.noConfusion h

/-- Looking a key up in an appended mapping checks the left part first. -/
theorem lookupAssoc_append (l₁ l₂ : List (String × Val)) (k : String) :
    lookupAssoc (l₁ ++ l₂) k =
      match lookupAssoc l₁ k with
      | some v => some v
      | none => lookupAssoc l₂ k := by
  induction l₁ with
  | nil => simp [lookupAssoc]
  | cons hd tl ih =>
    obtain ⟨k', v'⟩ := hd
    by_cases h : k' = k <;> simp [lookupAssoc, h, ih]

/-- A key held by no entry is not found. -/
theorem lookupAssoc_eq_none {l : List (String × Val)} {k : String}
    (h : ∀ kv ∈ l, kv.1 ≠ k) : lookupAssoc l k = none := by
  induction l with
  | nil => rfl
  | cons hd tl ih =>
    obtain ⟨k', v'⟩ := hd
    have h1 : k' ≠ k := h (k', v') (List.mem_cons_self _ _)
    simp only [lookupAssoc, h1, if_false]
    exact ih fun kv hkv => h kv (List.mem_cons_of_mem _ hkv)

/-- In-place replacement of a present key is found by lookup. -/
theorem lookup_map_update {l : List (String × Val)} {k : String} (v : Val)
    (h : l.any (fun kv => kv.1 = k) = true) :
    lookupAssoc (l.map (fun kv => if kv.1 = k then (k, v) else kv)) k
      = some v := by
  induction l with
  | nil => simp at h
  | cons hd tl ih =>
    obtain ⟨k', v'⟩ := hd
    by_cases hk : k' = k
    · subst hk
      rw [List.map_cons]
      rw [if_pos rfl]
      simp [lookupAssoc]
    · simp only [List.any_cons] at h
      simp only [hk, decide_False, Bool.false_or] at h
      rw [List.map_cons]
      rw [if_neg hk]
      simp only [lookupAssoc]
      rw [if_neg hk]
      exact ih h

/-- Updating a key makes it found with the updated value. -/
theorem lookupAssoc_updateAssoc (l : List (String × Val)) (k : String)
    (v : Val) : lookupAssoc (updateAssoc l k v) k = some v := by
  unfold updateAssoc
  split
  · exact lookup_map_update v (by assumption)
  · rename_i h
    rw [lookupAssoc_append]
    have hnone : lookupAssoc l k = none := by
      apply lookupAssoc_eq_none
      intro kv hkv
      simp only [List.any_eq_true, decide_eq_true_eq] at h
      exact fun he => h ⟨kv, hkv, he⟩
    simp [hnone, lookupAssoc]

/-- Updating one key leaves lookups of a different key unchanged. -/
theorem lookupAssoc_updateAssoc_ne (l : List (String × Val))
    {k k' : String} (v : Val) (h : k ≠ k') :
    lookupAssoc (updateAssoc l k' v) k = lookupAssoc l k := by
  unfold updateAssoc
  split
  · clear * - h
    induction l with
    | nil => rfl
    | cons hd tl ih =>
      obtain ⟨k0, v0⟩ := hd
      rw [List.map_cons]
      by_cases h0 : k0 = k'
      · subst h0
        rw [if_pos rfl]
        have hne : ¬k0 = k := fun he => h (Eq.symm he)
        simp only [lookupAssoc]
        rw [if_neg hne, if_neg hne]
        exact ih
      · rw [if_neg h0]
        simp only [lookupAssoc]
        by_cases h1 : k0 = k
        · rw [if_pos h1, if_pos h1]
        · rw [if_neg h1, if_neg h1]
          exact ih
  · rw [lookupAssoc_append]
    cases hl : lookupAssoc l k with
    | some w => simp
    | none => simp [lookupAssoc, Ne.symm h]

/-- Claim C1 counterexample: on a member built without a client
reference, `ban` does not raise the missing-context error — it lacks the
guard every other action method performs and instead fails with the
attribute error of dereferencing the absent client (still with no
transport call). -/
theorem ban_missing_guard_counterexample :
    Member.ban demoMemberNoClient 1 none 0 = ⟨[], .error .noneAttribute⟩ ∧
    Member.kick demoMemberNoClient 1 none = ⟨[], .error .missingContext⟩ ∧
    Err.noneAttribute ≠ Err.missingContext :=
  ⟨rfl, rfl, by decide⟩

/-- Claim C1 (amended): with an absent client reference, `kick`,
`add_role`, `remove_role`, `send`, `add_to_thread` and `modify` raise the
explicit missing-context error, while `ban` and `Invite.delete`, which
lack the guard, fail with the null-dereference attribute error; in every
case no transport call is performed and `modify` leaves the instance
untouched. -/
theorem remote_action_guard_behavior (m : Member) (inv : Invite)
    (hm : m.client = none) (hi : inv.client = none)
    (guild_id thread_id ddays : Int) (reason : Option String)
    (role : RoleArg)
    (content : Absent (Option String)) (comps : Absent (Option (OneOrMany Val)))
    (tts : Absent (Option Bool)) (files : Absent (Option (OneOrMany File)))
    (embeds : Absent (Option (OneOrMany Val))) (am : Absent (Option Val))
    (nick : Absent (Option String)) (roles : Absent (Option (List Int)))
    (mute deaf : Absent (Option Bool)) (channel_id : Absent (Option Int))
    (cdu : Absent (Option String)) (ireason : Absent String) :
    Member.ban m guild_id reason ddays = ⟨[], .error .noneAttribute⟩ ∧
    Member.kick m guild_id reason = ⟨[], .error .missingContext⟩ ∧
    Member.add_role m role guild_id reason = ⟨[], .error .missingContext⟩ ∧
    Member.remove_role m role guild_id reason
      = ⟨[], .error .missingContext⟩ ∧
    Member.send m content comps tts files embeds am
      = ⟨[], .error .missingContext⟩ ∧
    Member.add_to_thread m thread_id = ⟨[], .error .missingContext⟩ ∧
    Member.modify m guild_id nick roles mute deaf channel_id cdu reason
      = ⟨[], m, .error .missingContext⟩ ∧
    Invite.delete inv ireason = ⟨[], .error .noneAttribute⟩ := by
  refine ⟨?_, ?_, ?_, ?_, ?_, ?_, ?_, ?_⟩ <;>
    simp [Member.ban, Member.kick, Member.add_role, Member.remove_role,
      Member.send, Member.add_to_thread, Member.modify, Invite.delete,
      hm, hi]

/-- Witness for the amended C1 theorem at concrete inputs. -/
theorem remote_action_guard_behavior_witness :
    Member.ban demoMemberNoClient 7 (some "r") 2
      = ⟨[], .error .noneAttribute⟩ ∧
    Member.kick demoMemberNoClient 7 (some "r")
      = ⟨[], .error .missingContext⟩ ∧
    Member.add_role demoMemberNoClient (.id 3) 7 none
      = ⟨[], .error .missingContext⟩ ∧
    Member.remove_role demoMemberNoClient (.id 3) 7 none
      = ⟨[], .error .missingContext⟩ ∧
    Member.send demoMemberNoClient .missing .missing .missing .missing
      .missing .missing = ⟨[], .error .missingContext⟩ ∧
    Member.add_to_thread demoMemberNoClient 9
      = ⟨[], .error .missingContext⟩ ∧
    Member.modify demoMemberNoClient 7 .missing .missing .missing .missing
      .missing .missing none
      = ⟨[], demoMemberNoClient, .error .missingContext⟩ ∧
    Invite.delete demoInviteNoClient .missing
      = ⟨[], .error .noneAttribute⟩ :=
  remote_action_guard_behavior demoMemberNoClient demoInviteNoClient rfl rfl
    7 9 2 (some "r") (.id 3) .missing .missing .missing .missing .missing
    .missing .missing .missing .missing .missing .missing .missing .missing

/-- Claim C2 counterexample: a `send` with every optional parameter left
at the unset marker still passes a payload carrying all six keys — in
particular the key "content" is present though `content` was not
supplied.  The run's `create_message` call receives exactly that
payload. -/
theorem send_payload_unset_keys_counterexample :
    payloadKeys (sendPayload .missing .missing .missing .missing .missing
      .missing) = ["content", "tts", "attachments", "embeds", "components",
        "allowed_mentions"] ∧
    "content" ∈ payloadKeys (sendPayload .missing .missing .missing
      .missing .missing .missing) ∧
    (Member.send demoMember .missing .missing .missing .missing .missing
      .missing).calls =
      [Call.create_dm 42,
       Call.create_message 5
         (sendPayload .missing .missing .missing .missing .missing
           .missing) .missing] :=
  ⟨rfl, by decide, rfl⟩

/-- Claim C2 (amended): `modify` builds its payload by exclusion — a key
appears exactly for each parameter not left at the unset marker — while
`send` substitutes defaults and its payload always carries all six keys
regardless of which parameters were supplied. -/
theorem modify_excludes_unset_send_includes_all
    (nick : Absent (Option String)) (roles : Absent (Option (List Int)))
    (channel_id : Absent (Option Int)) (mute deaf : Absent (Option Bool))
    (cdu : Absent (Option String))
    (content : Absent (Option String)) (tts : Absent (Option Bool))
    (files : Absent (Option (OneOrMany File)))
    (embeds comps : Absent (Option (OneOrMany Val)))
    (am : Absent (Option Val)) (k : String) :
    (k ∈ payloadKeys (modifyPayload nick roles channel_id mute deaf cdu) ↔
      ((k = "nick" ∧ nick ≠ .missing) ∨ (k = "roles" ∧ roles ≠ .missing) ∨
       (k = "channel_id" ∧ channel_id ≠ .missing) ∨
       (k = "mute" ∧ mute ≠ .missing) ∨ (k = "deaf" ∧ deaf ≠ .missing) ∨
       (k = "communication_disabled_until" ∧ cdu ≠ .missing))) ∧
    payloadKeys (sendPayload content tts files embeds comps am) =
      ["content", "tts", "attachments", "embeds", "components",
       "allowed_mentions"] := by
  constructor
  · cases nick <;> cases roles <;> cases channel_id <;> cases mute <;>
      cases deaf <;> cases cdu <;>
      simp [modifyPayload, payloadKeys, absent_given_ne_missing]
  · rfl

/-- Witness for the amended C2 theorem at concrete inputs. -/
theorem modify_excludes_unset_send_includes_all_witness :
    ("nick" ∈ payloadKeys (modifyPayload (.given (some "n")) .missing
      .missing .missing .missing .missing) ↔
      (("nick" = "nick" ∧ (Absent.given (some "n") : Absent (Option String))
          ≠ .missing) ∨
       ("nick" = "roles" ∧ (Absent.missing : Absent (Option (List Int)))
          ≠ .missing) ∨
       ("nick" = "channel_id" ∧ (Absent.missing : Absent (Option Int))
          ≠ .missing) ∨
       ("nick" = "mute" ∧ (Absent.missing : Absent (Option Bool))
          ≠ .missing) ∨
       ("nick" = "deaf" ∧ (Absent.missing : Absent (Option Bool))
          ≠ .missing) ∨
       ("nick" = "communication_disabled_until" ∧
          (Absent.missing : Absent (Option String)) ≠ .missing))) ∧
    payloadKeys (sendPayload (.given (some "hello")) .missing .missing
      .missing .missing .missing) =
      ["content", "tts", "attachments", "embeds", "components",
       "allowed_mentions"] :=
  modify_excludes_unset_send_includes_all (.given (some "n")) .missing
    .missing .missing .missing .missing (.given (some "hello")) .missing
    .missing .missing .missing .missing "nick"

/-- Claim C4: a successful `modify` replaces every attribute of the
instance's slot set with the corresponding attribute of the member
freshly constructed from the transport response, keeps the context
reference pinned, and returns that fresh member. -/
theorem modify_wholesale_replacement (m : Member) (guild_id : Int)
    (nick : Absent (Option String)) (roles : Absent (Option (List Int)))
    (mute deaf : Absent (Option Bool)) (channel_id : Absent (Option Int))
    (cdu : Absent (Option String)) (reason : Option String)
    {http : Http} {u : User} {uid : Int} {kvs : List (String × Val)}
    {fresh : Member}
    (hc : m.client = some http) (hu : m.user = some u)
    (hid : u.id = some uid)
    (hres : http (Call.modify_member uid guild_id
        (modifyPayload nick roles channel_id mute deaf cdu) reason)
      = .ok (.vobj kvs))
    (hfresh : memberFromKwargs kvs (some http) = .ok fresh) :
    (Member.modify m guild_id nick roles mute deaf channel_id cdu
        reason).result = .ok fresh ∧
    (Member.modify m guild_id nick roles mute deaf channel_id cdu
        reason).selfAfter = replaceSlots m fresh ∧
    (replaceSlots m fresh).user = fresh.user ∧
    (replaceSlots m fresh).nick = fresh.nick ∧
    (replaceSlots m fresh)._avatar = fresh._avatar ∧
    (replaceSlots m fresh).roles = fresh.roles ∧
    (replaceSlots m fresh).joined_at = fresh.joined_at ∧
    (replaceSlots m fresh).premium_since = fresh.premium_since ∧
    (replaceSlots m fresh).deaf = fresh.deaf ∧
    (replaceSlots m fresh).mute = fresh.mute ∧
    (replaceSlots m fresh).is_pending = fresh.is_pending ∧
    (replaceSlots m fresh).pending = fresh.pending ∧
    (replaceSlots m fresh).permissions = fresh.permissions ∧
    (replaceSlots m fresh).communication_disabled_until
      = fresh.communication_disabled_until ∧
    (replaceSlots m fresh).hoisted_role = fresh.hoisted_role ∧
    (replaceSlots m fresh).flags = fresh.flags ∧
    (replaceSlots m fresh).client = m.client := by
  refine ⟨?_, ?_, rfl, rfl, rfl, rfl, rfl, rfl, rfl, rfl, rfl, rfl, rfl,
    rfl, rfl, rfl, hc ▸ rfl⟩ <;>
    simp [Member.modify, hc, hu, hid, hres, hfresh]

/-- Witness for the C4 theorem at concrete inputs. -/
theorem modify_wholesale_replacement_witness :
    (Member.modify demoMember 1 .missing .missing .missing .missing
        .missing .missing none).result = .ok demoFresh ∧
    (Member.modify demoMember 1 .missing .missing .missing .missing
        .missing .missing none).selfAfter
      = replaceSlots demoMember demoFresh :=
  have h := modify_wholesale_replacement demoMember 1 .missing .missing
    .missing .missing .missing .missing none rfl rfl rfl rfl rfl
  ⟨h.1, h.2.1⟩

/-- Claim C5: when the transport call of `modify` fails, the error
propagates (wrapped as a transport failure) and the instance is left
exactly as it was — the whole-object replacement step never ran. -/
theorem modify_transport_error_preserves (m : Member) (guild_id : Int)
    (nick : Absent (Option String)) (roles : Absent (Option (List Int)))
    (mute deaf : Absent (Option Bool)) (channel_id : Absent (Option Int))
    (cdu : Absent (Option String)) (reason : Option String)
    {http : Http} {u : User} {uid : Int} {e : String}
    (hc : m.client = some http) (hu : m.user = some u)
    (hid : u.id = some uid)
    (herr : http (Call.modify_member uid guild_id
        (modifyPayload nick roles channel_id mute deaf cdu) reason)
      = .error e) :
    Member.modify m guild_id nick roles mute deaf channel_id cdu reason =
      ⟨[Call.modify_member uid guild_id
          (modifyPayload nick roles channel_id mute deaf cdu) reason],
       m, .error (.transport e)⟩ := by
  simp [Member.modify, hc, hu, hid, herr]

/-- Witness for the C5 theorem at concrete inputs. -/
theorem modify_transport_error_preserves_witness :
    Member.modify demoMemberErr 1 .missing .missing .missing .missing
        .missing .missing none =
      ⟨[Call.modify_member 42 1 (modifyPayload .missing .missing .missing
          .missing .missing .missing) none],
       demoMemberErr, .error (.transport "rate limited")⟩ :=
  modify_transport_error_preserves demoMemberErr 1 .missing .missing
    .missing .missing .missing .missing none rfl rfl rfl rfl

/-- Claim C6: constructing an object whose enum-coerced integer field has
no mapped variant does not fail — the raw integer is preserved on the
instance and every other field is converted normally; likewise the
`Invite.target_type` converter keeps an unmapped integer raw. -/
theorem unknown_enum_tolerance (kwargs : List (String × Val)) (n : Int)
    (htype : lookupAssoc kwargs "type" = some (.vint n))
    (hunk : ComponentType.ofInt n = none) :
    componentNew kwargs = .ok
      { type := .unknownRaw n,
        custom_id := lookupAssoc kwargs "custom_id",
        disabled := lookupAssoc kwargs "disabled",
        style := lookupAssoc kwargs "style",
        label := lookupAssoc kwargs "label",
        emoji := lookupAssoc kwargs "emoji",
        url := lookupAssoc kwargs "url",
        options := lookupAssoc kwargs "options",
        placeholder := lookupAssoc kwargs "placeholder",
        min_values := lookupAssoc kwargs "min_values",
        max_values := lookupAssoc kwargs "max_values",
        components := lookupAssoc kwargs "components",
        _json := kwargs } ∧
    (∀ i : Int, InviteTargetTypes.ofInt i = none →
      inviteTargetTypeConv (some (.vint i))
        = .ok (some (.unknownRaw i))) := by
  constructor
  · simp [componentNew, htype, enumCoerce, hunk]
  · intro i hi
    simp [inviteTargetTypeConv, enumCoerce, hi]

/-- Witness for the C6 theorem at the concrete unmapped integer 99. -/
theorem unknown_enum_tolerance_witness :
    componentNew unknownTypeKwargs = .ok
      { type := .unknownRaw 99,
        custom_id := lookupAssoc unknownTypeKwargs "custom_id",
        disabled := lookupAssoc unknownTypeKwargs "disabled",
        style := lookupAssoc unknownTypeKwargs "style",
        label := lookupAssoc unknownTypeKwargs "label",
        emoji := lookupAssoc unknownTypeKwargs "emoji",
        url := lookupAssoc unknownTypeKwargs "url",
        options := lookupAssoc unknownTypeKwargs "options",
        placeholder := lookupAssoc unknownTypeKwargs "placeholder",
        min_values := lookupAssoc unknownTypeKwargs "min_values",
        max_values := lookupAssoc unknownTypeKwargs "max_values",
        components := lookupAssoc unknownTypeKwargs "components",
        _json := unknownTypeKwargs } ∧
    (∀ i : Int, InviteTargetTypes.ofInt i = none →
      inviteTargetTypeConv (some (.vint i))
        = .ok (some (.unknownRaw i))) :=
  unknown_enum_tolerance unknownTypeKwargs 99 rfl rfl

/-- From a successful member construction, the `_avatar` attribute is
exactly the converted value of the wire key "avatar". -/
theorem memberFromKwargs_avatar {raw : List (String × Val)}
    {client : Option Http} {m : Member}
    (h : memberFromKwargs raw client = .ok m) :
    asOptStr (lookupAssoc raw "avatar") = .ok m._avatar := by
  unfold memberFromKwargs at h
  simp only [except_bind_ok] at h
  obtain ⟨user, -, nick, -, av, hav, roles, -, joined, -, prem, -, deaf,
    -, mute, -, isp, -, pend, -, perms, -, cdu, -, fl, -, hm⟩ := h
  cases hm
  exact hav

/-- Claim C7 counterexample: constructed from a raw mapping whose
"avatar" key holds the empty string, `_avatar` is non-null (`some ""`),
yet the public property does not return it — Python truthiness makes it
fall back to the nested user's avatar. -/
theorem avatar_empty_string_counterexample :
    memberFromKwargs avatarEmptyRaw none = .ok avatarEmptyMember ∧
    avatarEmptyMember._avatar = some "" ∧
    Member.avatar avatarEmptyMember = some "abc123" ∧
    (some "abc123" : Option String) ≠ some "" :=
  ⟨rfl, rfl, rfl, by decide⟩

/-- Claim C7 (amended): `_avatar` is populated from the wire key
"avatar"; the public property returns `_avatar` when it is non-null AND
non-empty and otherwise falls back to the nested user's avatar (null only
when both are absent); the spec's example raw mapping yields the public
avatar "abc123". -/
theorem avatar_renamed_key_fallback :
    (∀ raw client m, memberFromKwargs raw client = Except.ok m →
      ((lookupAssoc raw "avatar" = none → m._avatar = none) ∧
       (lookupAssoc raw "avatar" = some .vnull → m._avatar = none) ∧
       (∀ s, lookupAssoc raw "avatar" = some (.vstr s)
          → m._avatar = some s))) ∧
    (∀ m : Member,
      (∀ s, m._avatar = some s → s ≠ "" → Member.avatar m = some s) ∧
      ((m._avatar = none ∨ m._avatar = some "") →
        Member.avatar m = m.user.bind (fun u => u.avatar))) ∧
    (memberFromKwargs avatarExampleRaw none = .ok avatarExampleMember ∧
     Member.avatar avatarExampleMember = some "abc123") := by
  refine ⟨?_, ?_, rfl, rfl⟩
  · intro raw client m h
    have hav := memberFromKwargs_avatar h
    refine ⟨?_, ?_, ?_⟩
    · intro hc
      rw [hc] at hav
      simpa [asOptStr] using hav.symm
    · intro hc
      rw [hc] at hav
      simpa [asOptStr] using hav.symm
    · intro s hc
      rw [hc] at hav
      simpa [asOptStr] using hav.symm
  · intro m
    constructor
    · intro s hs hne
      simp [Member.avatar, hs, hne]
    · intro hcase
      rcases hcase with hc | hc <;> simp [Member.avatar, hc]

/-- Witness for the amended C7 theorem at the spec's example input. -/
theorem avatar_renamed_key_fallback_witness :
    avatarExampleMember._avatar = none ∧
    Member.avatar avatarExampleMember = some "abc123" :=
  ⟨(avatar_renamed_key_fallback.1 avatarExampleRaw none
      avatarExampleMember rfl).2.1 rfl,
   avatar_renamed_key_fallback.2.2.2⟩

/-- Claim C8: the identifier-based relational properties of an invite
resolve through the client's cache at access time, return null rather
than raising when the stored identifier is absent or the entity is not
resident, and are independent of the transport collaborator (no
transport call can be involved in their value). -/
theorem invite_relations_cache_resolution (inv : Invite)
    (c : InviteClient) (hc : inv.client = some c) :
    Invite.channel inv = .ok (c.cache.get_channel inv._channel_id) ∧
    (inv._inviter_id = none → Invite.inviter inv = .ok none) ∧
    (∀ i, inv._inviter_id = some i → i ≠ 0 →
      Invite.inviter inv = .ok (c.cache.get_user i)) ∧
    (∀ i, inv._inviter_id = some i → c.cache.get_user i = none →
      Invite.inviter inv = .ok none) ∧
    (inv._target_user_id = none → Invite.target_user inv = .ok none) ∧
    (∀ i, inv._target_user_id = some i → i ≠ 0 →
      Invite.target_user inv = .ok (c.cache.get_user i)) ∧
    (∀ i, inv._target_user_id = some i → c.cache.get_user i = none →
      Invite.target_user inv = .ok none) ∧
    (∀ http2 : Http,
      Invite.channel { inv with client := some ⟨c.cache, http2⟩ }
        = Invite.channel inv ∧
      Invite.inviter { inv with client := some ⟨c.cache, http2⟩ }
        = Invite.inviter inv ∧
      Invite.target_user { inv with client := some ⟨c.cache, http2⟩ }
        = Invite.target_user inv) := by
  refine ⟨?_, ?_, ?_, ?_, ?_, ?_, ?_, ?_⟩
  · simp [Invite.channel, hc]
  · intro h
    simp [Invite.inviter, h]
  · intro i hi hne
    simp [Invite.inviter, hi, hne, hc]
  · intro i hi hmiss
    by_cases hne : i = 0 <;> simp [Invite.inviter, hi, hne, hc, hmiss]
  · intro h
    simp [Invite.target_user, h]
  · intro i hi hne
    simp [Invite.target_user, hi, hne, hc]
  · intro i hi hmiss
    by_cases hne : i = 0 <;>
      simp [Invite.target_user, hi, hne, hc, hmiss]
  · intro http2
    refine ⟨?_, ?_, ?_⟩ <;>
      cases hii : inv._inviter_id <;>
      cases hit : inv._target_user_id <;>
      simp [Invite.channel, Invite.inviter, Invite.target_user, hc,
        hii, hit]

/-- Witness for the C8 theorem at concrete inputs over an empty cache. -/
theorem invite_relations_cache_resolution_witness :
    Invite.channel demoInvite = .ok none ∧
    Invite.inviter demoInvite = .ok none :=
  have h := invite_relations_cache_resolution demoInvite demoInviteClient
    rfl
  ⟨h.1, h.2.2.1 7 rfl (by decide)⟩

/-- Claim C9: the `name` property is a pure derivation — it returns the
per-guild nickname when it is set (non-null and non-empty) and otherwise
falls back to the nested user's global username. -/
theorem member_name_pure_fallback (m : Member) :
    (∀ s, m.nick = some s → s ≠ "" → Member.name m = some s) ∧
    ((m.nick = none ∨ m.nick = some "") →
      Member.name m = m.user.bind (fun u => u.username)) := by
  constructor
  · intro s hs hne
    simp [Member.name, hs, hne]
  · intro hcase
    rcases hcase with hc | hc <;> simp [Member.name, hc]

/-- Witness for the C9 theorem at concrete inputs. -/
theorem member_name_pure_fallback_witness :
    Member.name demoMemberErr = some "old" ∧
    Member.name demoMember = some "global" :=
  ⟨(member_name_pure_fallback demoMemberErr).1 "old" rfl (by decide),
   (member_name_pure_fallback demoMember).2 (Or.inl rfl)⟩

/-- Claim C10: the `Button`, `SelectMenu` and `ActionRow` constructors
unconditionally overwrite the type field after base construction,
whatever type value the caller supplied, and for `Button` and
`SelectMenu` the serialized mapping's "type" key carries the same
underlying integer. -/
theorem component_constructor_type_override
    (kwargs : List (String × Val)) :
    (∀ b, buttonNew kwargs = .ok b →
      b.type = ComponentType.button ∧
      lookupAssoc b._json "type" = some (.vint 2)) ∧
    (selectMenuNew kwargs).type = ComponentType.selectMenu ∧
    lookupAssoc (selectMenuNew kwargs)._json "type" = some (.vint 3) ∧
    (actionRowNew kwargs).type = 1 ∧
    ComponentType.button.val = 2 ∧ ComponentType.selectMenu.val = 3 := by
  refine ⟨?_, rfl, ?_, rfl, rfl, rfl⟩
  · intro b hb
    unfold buttonNew at hb
    split at hb
    · cases hb
      refine ⟨rfl, ?_⟩
      show lookupAssoc (updateAssoc (updateAssoc kwargs "type"
        (.vint ComponentType.button.val)) "style" (.vint _)) "type"
        = some (.vint 2)
      rw [lookupAssoc_updateAssoc_ne _ _ (by decide),
        lookupAssoc_updateAssoc]
      rfl
    · exact Except.noConfusion hb
  · show lookupAssoc (updateAssoc kwargs "type"
      (.vint ComponentType.selectMenu.val)) "type" = some (.vint 3)
    rw [lookupAssoc_updateAssoc]
    rfl

/-- Witness for the C10 theorem at concrete kwargs carrying a bogus
caller-supplied type. -/
theorem component_constructor_type_override_witness :
    demoButton.type = ComponentType.button ∧
    lookupAssoc demoButton._json "type" = some (.vint 2) ∧
    (selectMenuNew buttonKwargs).type = ComponentType.selectMenu :=
  have h := component_constructor_type_override buttonKwargs
  have hb := h.1 demoButton rfl
  ⟨hb.1, hb.2, h.2.1⟩

namespace Schema

/-- Every entry emitted by field serialization carries the wire key of
one of the serialized descriptors. -/
theorem emit_mem {fs : List FieldDescr} {xs : List FVal}
    {kv : String × Val} (h : kv ∈ emitFields fs xs) :
    ∃ f ∈ fs, kv.1 = f.wireKey := by
  induction fs generalizing xs with
  | nil => simp [emitFields] at h
  | cons g gs ih =>
    cases xs with
    | nil => simp [emitFields] at h
    | cons x xs' =>
      simp only [emitFields] at h
      rcases List.mem_append.mp h with h1 | h2
      · cases x with
        | unset => simp at h1
        | val v =>
          simp only [List.mem_singleton] at h1
          exact ⟨g, List.mem_cons_self _ _, by rw [h1]⟩
      · obtain ⟨f, hf, hk⟩ := ih h2
        exact ⟨f, List.mem_cons_of_mem _ hf, hk⟩

/-- Field construction only depends on the per-field lookups, so two raw
mappings agreeing on every descriptor produce the same fields. -/
theorem buildFields_congr {r1 r2 : List (String × Val)}
    {fs : List FieldDescr}
    (h : ∀ f ∈ fs, convertField r1 f = convertField r2 f) :
    buildFields r1 fs = buildFields r2 fs := by
  induction fs with
  | nil => rfl
  | cons g gs ih =>
    simp only [buildFields]
    rw [h g (List.mem_cons_self _ _),
      ih fun f hf => h f (List.mem_cons_of_mem _ hf)]

/-- Looking a descriptor's wire key up in its own serialized output (with
any extra entries whose keys the schema does not cover appended) recovers
exactly the field's emitted value: the converted value when one was
stored, nothing when the field was unset. -/
theorem lookup_toJSON_of_mem (raw extra : List (String × Val))
    (fs : List FieldDescr) (hnd : (fs.map FieldDescr.wireKey).Nodup)
    (hex : ∀ kv ∈ extra, isSchemaKey fs kv.1 = false)
    {f : FieldDescr} (hf : f ∈ fs) :
    lookupAssoc (emitFields fs (buildFields raw fs) ++ extra) f.wireKey =
      (convertField raw f).toOption := by
  induction fs with
  | nil => simp at hf
  | cons g gs ih =>
    have hgnotin : g.wireKey ∉ gs.map FieldDescr.wireKey :=
      (List.nodup_cons.mp hnd).1
    have hndgs : (gs.map FieldDescr.wireKey).Nodup :=
      (List.nodup_cons.mp hnd).2
    have hexgs : ∀ kv ∈ extra, isSchemaKey gs kv.1 = false := by
      intro kv hkv
      have hx := hex kv hkv
      simp only [isSchemaKey, List.any_cons, Bool.or_eq_false_iff] at hx
      simpa [isSchemaKey] using hx.2
    simp only [buildFields, emitFields]
    rcases List.mem_cons.mp hf with rfl | hfgs
    · cases hcv : convertField raw f with
      | val v =>
        simp only [List.singleton_append, List.cons_append, lookupAssoc,
          FVal.toOption]
        simp
      | unset =>
        simp only [List.nil_append]
        rw [FVal.toOption]
        apply lookupAssoc_eq_none
        intro kv hkv
        rcases List.mem_append.mp hkv with h1 | h2
        · obtain ⟨f', hf', hk⟩ := emit_mem h1
          rw [hk]
          exact fun he => hgnotin (he ▸ List.mem_map_of_mem _ hf')
        · have hx := hex kv h2
          simp only [isSchemaKey, List.any_cons, Bool.or_eq_false_iff,
            decide_eq_false_iff_not] at hx
          exact fun he => hx.1 he.symm
    · have hfk : f.wireKey ≠ g.wireKey := by
        intro he
        exact hgnotin (he ▸ List.mem_map_of_mem _ hfgs)
      cases hcv : convertField raw g with
      | val v =>
        simp only [List.singleton_append, List.cons_append, lookupAssoc]
        rw [if_neg (fun he => hfk he.symm)]
        exact ih hndgs hexgs hfgs
      | unset =>
        simp only [List.nil_append]
        exact ih hndgs hexgs hfgs

/-- Claim C3: for a well-formed schema (unique wire keys, converters
idempotent on already-converted values — defaults included), rebuilding
an instance from its own serialization yields the instance built from the
original raw mapping: fromJSON schema (toJSON schema (fromJSON schema
raw)) = fromJSON schema raw. -/
theorem fromJSON_toJSON_roundtrip (schema : List FieldDescr)
    (raw : List (String × Val))
    (hnd : (schema.map FieldDescr.wireKey).Nodup)
    (hidem : ∀ f ∈ schema, ∀ v, f.conv (f.conv v) = f.conv v)
    (hdef : ∀ f ∈ schema, ∀ d, f.default = .val d → f.conv d = d) :
    fromJSON schema (toJSON schema (fromJSON schema raw)) =
      fromJSON schema raw := by
  have hex : ∀ kv ∈ raw.filter (fun kv => !(isSchemaKey schema kv.1)),
      isSchemaKey schema kv.1 = false := by
    intro kv hkv
    have hx := (List.mem_filter.mp hkv).2
    simpa using hx
  show Instance.mk _ _ = Instance.mk _ _
  congr 1
  · apply buildFields_congr
    intro f hf
    have hl := lookup_toJSON_of_mem raw _ schema hnd hex hf
    show convertField (toJSON schema (fromJSON schema raw)) f
      = convertField raw f
    rw [show toJSON schema (fromJSON schema raw) =
        emitFields schema (buildFields raw schema) ++
          raw.filter (fun kv => !(isSchemaKey schema kv.1)) from rfl]
    rw [convertField, hl]
    cases hraw : lookupAssoc raw f.wireKey with
    | some v =>
      rw [convertField, hraw]
      simp only [FVal.toOption]
      rw [hidem f hf v]
    | none =>
      rw [convertField, hraw]
      cases hd : f.default with
      | unset => simp [FVal.toOption, hd]
      | val d =>
        simp only [FVal.toOption]
        rw [hdef f hf d hd]
  · show (emitFields schema (buildFields raw schema) ++
        raw.filter (fun kv => !(isSchemaKey schema kv.1))).filter
          (fun kv => !(isSchemaKey schema kv.1)) = _
    rw [List.filter_append]
    have h1 : (emitFields schema (buildFields raw schema)).filter
        (fun kv => !(isSchemaKey schema kv.1)) = [] := by
      rw [List.filter_eq_nil_iff]
      intro kv hkv
      obtain ⟨f, hf, hk⟩ := emit_mem hkv
      simp only [Bool.not_eq_true', Bool.not_eq_false]
      rw [hk]
      simp only [isSchemaKey, List.any_eq_true, decide_eq_true_eq]
      exact ⟨f, hf, rfl⟩
    have h2 : (raw.filter (fun kv => !(isSchemaKey schema kv.1))).filter
        (fun kv => !(isSchemaKey schema kv.1)) =
        raw.filter (fun kv => !(isSchemaKey schema kv.1)) := by
      rw [List.filter_filter]
      simp
    rw [h1, h2, List.nil_append]

end Schema

/-- Witness for the C3 round-trip theorem at a concrete schema (one
unset-default field, one value-default field, identity converters) and a
concrete raw mapping with one unknown key. -/
theorem schema_roundtrip_witness :
    Schema.fromJSON wSchema (Schema.toJSON wSchema
      (Schema.fromJSON wSchema wRaw)) = Schema.fromJSON wSchema wRaw := by
  apply Schema.fromJSON_toJSON_roundtrip
  · simp [wSchema]
  · intro f hf v
    simp only [wSchema, List.mem_cons, List.mem_singleton,
      List.not_mem_nil, or_false] at hf
    rcases hf with rfl | rfl <;> rfl
  · intro f hf d hd
    simp only [wSchema, List.mem_cons, List.mem_singleton,
      List.not_mem_nil, or_false] at hf
    rcases hf with rfl | rfl
    · exact Schema.FVal.noConfusion hd
    · cases hd
      rfl

end Interactions

